import Mathlib

/-!
Verification of the HTKK template parsing / validation / export engine
(`src/frontend/src/services/htkk-parser.ts`,
`src/frontend/src/services/htkk-form-engine.ts`,
`src/frontend/src/types/htkk-schema.ts`).

The TypeScript services are shallowly embedded: DOM elements become
structures of their attribute values, JavaScript records become association
lists, exceptions become `Except`, and the browser environment (DOMParser
well-formedness checking, `Date` parsing, `RegExp.test`) is abstracted as a
record of boolean-valued functions, since those live in the browser, outside
the repository. Wall-clock values (`parseTime`, `exportedAt`, `lastUpdated`)
are omitted: no property depends on them.
-/

namespace HTKK

/-! ## JavaScript-semantics helpers -/

/-- JS truthiness for an optional string attribute: `null` (absent) and the
empty string are falsy (`!x`). -/
def jsFalsyOptStr : Option String → Bool
  | none => true
  | some s => s = ""

/-- JS `a || b` for an optional string with a string default: falsy `a`
(absent or empty) yields `b`. -/
def jsOr (a : Option String) (b : String) : String :=
  if jsFalsyOptStr a then b else a.getD b

/-- JS `a || undefined`: maps a falsy attribute (absent or empty string) to
`undefined`, i.e. `none`. -/
def jsOrUndef (a : Option String) : Option String :=
  if jsFalsyOptStr a then none else a

/-- JS `s.startsWith(pre)` over the character list. -/
def jsStartsWith (s pre : String) : Bool :=
  pre.data.isPrefixOf s.data

/-- JS `s.includes(sub)`: substring containment. -/
def strContains (s sub : String) : Bool :=
  (List.range (s.data.length + 1)).any fun i => sub.data.isPrefixOf (s.data.drop i)

/-- Numeric value of a list of decimal digit characters. -/
def digitsVal (l : List Char) : Nat :=
  l.foldl (fun a c => a * 10 + (c.toNat - '0'.toNat)) 0

/-- JS `parseInt(s)` in base 10: skip spaces, optional sign, then the longest
digit run; `none` models `NaN` (no digits). -/
def jsParseInt (s : String) : Option Int :=
  let cs := s.data.dropWhile (fun c => c = ' ')
  let signAndRest : Bool × List Char :=
    match cs with
    | '-' :: r => (true, r)
    | '+' :: r => (false, r)
    | r => (false, r)
  let ds := signAndRest.2.takeWhile (fun c => '0' ≤ c && c ≤ '9')
  if ds.isEmpty then none
  else some ((if signAndRest.1 then -1 else 1) * (digitsVal ds : Int))

/-- JS record assignment `m[k] = v`: overwrite in place if the key exists,
otherwise append (insertion order preserved, as in JS objects). -/
def recordSet (m : List (String × List String)) (k : String) (v : List String) :
    List (String × List String) :=
  if m.any (fun p => p.1 = k) then m.map (fun p => if p.1 = k then (k, v) else p)
  else m ++ [(k, v)]

/-! ## Data model (`htkk-schema.ts`) -/

/-- `HTKKControlType`: the closed control-type catalogue (numeric codes in
the source enum: TEXT=0, CHECKBOX=2, DEPENDENT_DROPDOWN=6, DATE=14,
NUMBER=16, TAX_CODE=26, COUNTRY_DROPDOWN=56, PROVINCE_DROPDOWN=100,
WARD_DROPDOWN=101, HIDDEN=999). -/
inductive HTKKControlType
  | TEXT
  | CHECKBOX
  | DEPENDENT_DROPDOWN
  | DATE
  | NUMBER
  | TAX_CODE
  | PROVINCE_DROPDOWN
  | WARD_DROPDOWN
  | COUNTRY_DROPDOWN
  | HIDDEN
deriving DecidableEq, Repr

/-- `HTKKField` from `htkk-schema.ts`. `minValue`/`maxValue` are
`string | number` in the source (`parseOptionalValue`); they are modelled as
the numeric case (`Option Int`), the only case any validation rule compares
(`Number(min) > Number(max)`). `value` is the `Value` attribute string. -/
structure HTKKField where
  cellId : String
  cellId2 : Option String
  path : String
  controlType : HTKKControlType
  encode : Bool
  value : String
  defaultValue : Option String
  maxLen : Option Int
  minValue : Option Int
  maxValue : Option Int
  helpContextId : Option String
  selectedValue : Option String
  parentCell : Option String
  childCell : Option String
  statusId : Option String
deriving DecidableEq, Repr

/-- `HTKKSectionLocation`: the five row-start offsets of a dynamic section. -/
structure HTKKSectionLocation where
  tableTemplateRowStart : Int
  tableReportRowStart : Int
  dataLocationTemplateRowStart : Int
  dataLocationReportRowStart : Int
  dataLocationTaiBangKeRowStart : Int
deriving DecidableEq, Repr

/-- `HTKKSection` from `htkk-schema.ts`. -/
structure HTKKSection where
  dynamic : Bool
  maxRows : Int
  tableName : Option String
  tablePath : Option String
  id : Option String
  iColumnSTT : Option Int
  iColumnSTTReport : Option Int
  location : Option HTKKSectionLocation
  cells : List HTKKField
  rowInfo : Option (List HTKKField)
  rowData : Option String
deriving DecidableEq, Repr

/-- Template metadata (`HTKKTemplate.metadata`); `lastUpdated` (wall clock)
and `xmlNamespace` (never set by the parser) are omitted. -/
structure TemplateMetadata where
  title : String
  description : String
  dtdPath : Option String
deriving DecidableEq, Repr

/-- `HTKKTemplate` from `htkk-schema.ts`. -/
structure HTKKTemplate where
  version : String
  formCode : String
  sections : List HTKKSection
  metadata : TemplateMetadata
deriving DecidableEq, Repr

/-- A JavaScript value as it flows through form data and validation:
`undefined`, `null`, strings, and (integer) numbers. -/
inductive JsValue
  | undefined
  | null
  | str (s : String)
  | num (n : Int)
deriving DecidableEq, Repr

/-- `HTKKFormData` from `htkk-schema.ts`: `data` is the path-keyed record of
static values, `dynamicData` the tablePath-keyed record of row records.
The `metadata` block (timestamps, session ids) is omitted: nothing in the
engine reads it. -/
structure HTKKFormData where
  formCode : String
  templateVersion : String
  data : List (String × JsValue)
  dynamicData : List (String × List (List (String × JsValue)))

/-- JS record read `m[k]`: `undefined` when the key is absent. -/
def recordGet (m : List (String × JsValue)) (k : String) : JsValue :=
  ((m.find? (fun p => p.1 = k)).map (fun p => p.2)).getD .undefined

/-- `HTKKValidationResult` from `htkk-schema.ts`. -/
structure HTKKValidationResult where
  isValid : Bool
  fieldErrors : List (String × List String)
  fieldWarnings : List (String × List String)
  businessRuleErrors : List String
  crossFieldErrors : List String
  complianceErrors : List String
  missingRequiredFields : List String
  calculationErrors : List String
  errorCount : Nat
  warningCount : Nat
  validationScore : Int
deriving DecidableEq, Repr

end HTKK

namespace HTKK

/-! ## Parser element model

`parseTemplate` first runs the browser `DOMParser`; everything after that
works on DOM elements via `getAttribute`/`querySelector`. The embedding
starts from that already-DOM-parsed shape: an element is the record of the
attribute strings the parser reads (`none` = attribute absent). -/

/-- A `<Cell>` element as `parseField` reads it. `controltypeAttr` is the
JS expression `getAttribute('Controltype') || getAttribute('ControlType')`.
`maxLen`, `minValue`, `maxValue`, `iColumnSTT*` style numeric attributes are
modelled after `parseOptionalInt`/`parseOptionalValue` (numeric case), as
`Option Int`. -/
structure CellElement where
  cellId : Option String
  cellId2 : Option String
  path : Option String
  controltypeAttr : Option String
  encodeAttr : Option String
  valueAttr : Option String
  defaultValueAttr : Option String
  maxLen : Option Int
  minValue : Option Int
  maxValue : Option Int
  helpContextId : Option String
  selectedValue : Option String
  parentCell : Option String
  childCell : Option String
  statusId : Option String
deriving DecidableEq, Repr

/-- A `<Section>` element as `parseSection` reads it. `maxRowsAttr` is the
numeric value of the `MaxRows` attribute (`parseInt(attr || '0')`), `none`
when the attribute is absent. `location` stands for an already well-formed
`<Location>` child (its five integers; `parseLocation`'s own
missing-integer throw is not exercised by any claim). `cells`/`rowInfo` are
the `<Cell>` children of the `<Cells>`/`<RowInfo>` child, `none` when that
child element is absent. -/
structure SectionElement where
  dynamicAttr : Option String
  maxRowsAttr : Option Int
  tableNameAttr : Option String
  tablePathAttr : Option String
  idAttr : Option String
  iColumnSTT : Option Int
  iColumnSTTReport : Option Int
  location : Option HTKKSectionLocation
  cells : Option (List CellElement)
  rowInfo : Option (List CellElement)
  rowDataText : Option String
deriving DecidableEq, Repr

/-- The document handed to `parseTemplate` after `DOMParser` succeeded:
root tag name, its `Version` attribute, the `<Section>` elements in document
order, and the `<!DOCTYPE ... SYSTEM "...">` path `extractDTDPath` finds. -/
structure SectionsDoc where
  rootTag : String
  versionAttr : Option String
  sections : List SectionElement
  dtdPath : Option String
deriving DecidableEq, Repr

/-- `ParserConfig` from `htkk-parser.ts`. -/
structure ParserConfig where
  validateOnParse : Bool
  strictMode : Bool
  preserveComments : Bool
  cacheTemplates : Bool
deriving DecidableEq, Repr

/-- The configuration of the exported `htkkParser` singleton. -/
def defaultParserConfig : ParserConfig :=
  { validateOnParse := true, strictMode := false
    preserveComments := false, cacheTemplates := true }

/-- `ParseResult` from `htkk-parser.ts` (`parseTime` omitted: wall clock). -/
structure ParseResult where
  success : Bool
  template : Option HTKKTemplate
  errors : List String
  warnings : List String
deriving DecidableEq, Repr

/-- The numeric `switch` inside `parseControlType`; the argument is the
`parseInt` result (`none` = `NaN`, which also falls to `default`). The
`default` branch logs `console.warn` (unknown control type, defaulting to
TEXT) — a console side effect, not part of the returned value. -/
def parseControlTypeNum (n : Option Int) : HTKKControlType :=
  if n = some 0 then .TEXT
  else if n = some 2 then .CHECKBOX
  else if n = some 6 then .DEPENDENT_DROPDOWN
  else if n = some 14 then .DATE
  else if n = some 16 then .NUMBER
  else if n = some 26 then .TAX_CODE
  else if n = some 56 then .COUNTRY_DROPDOWN
  else if n = some 100 then .PROVINCE_DROPDOWN
  else if n = some 101 then .WARD_DROPDOWN
  else .TEXT

/-- `parseControlType` from `htkk-parser.ts`. -/
def parseControlType (controlTypeStr : String) : HTKKControlType :=
  parseControlTypeNum (jsParseInt controlTypeStr)

/-- The documented control-type codes (the explicit `case` labels). -/
def isKnownControlCode (n : Option Int) : Bool :=
  ([0, 2, 6, 14, 16, 26, 56, 100, 101] : List Int).any fun k => n = some k

/-- `parseField` from `htkk-parser.ts`: throws (here `Except.error`) when
`CellID`, `Path` or the control-type attribute is missing/empty, in that
order; otherwise assembles the field with the documented defaults. -/
def parseField (cell : CellElement) : Except String HTKKField :=
  if jsFalsyOptStr cell.cellId then .error "CellID is required"
  else if jsFalsyOptStr cell.path then .error "Path is required"
  else if jsFalsyOptStr cell.controltypeAttr then .error "Controltype is required"
  else .ok
    { cellId := cell.cellId.getD ""
      cellId2 := jsOrUndef cell.cellId2
      path := cell.path.getD ""
      controlType := parseControlType (cell.controltypeAttr.getD "")
      encode := cell.encodeAttr = some "1" || cell.encodeAttr = some "true"
      value := cell.valueAttr.getD ""
      defaultValue := jsOrUndef cell.defaultValueAttr
      maxLen := cell.maxLen
      minValue := cell.minValue
      maxValue := cell.maxValue
      helpContextId := jsOrUndef cell.helpContextId
      selectedValue := jsOrUndef cell.selectedValue
      parentCell := jsOrUndef cell.parentCell
      childCell := jsOrUndef cell.childCell
      statusId := jsOrUndef cell.statusId }

/-- The per-cell loop of `parseSection`: each failing cell contributes one
collected error (`label` is "Error parsing cell: " or
"Error parsing row info cell: "), good cells are kept in order — one bad
cell never stops the loop. -/
def parseCellList (label : String) : List CellElement → List HTKKField × List String
  | [] => ([], [])
  | c :: rest =>
    let tail := parseCellList label rest
    match parseField c with
    | .ok f => (f :: tail.1, tail.2)
    | .error e => (tail.1, (label ++ e) :: tail.2)

/-- `parseSection` from `htkk-parser.ts`: attribute extraction plus the two
cell loops; returns the section and the errors collected while parsing it. -/
def parseSection (se : SectionElement) : HTKKSection × List String :=
  let cellsParsed := parseCellList "Error parsing cell: " (se.cells.getD [])
  let rowParsed : Option (List HTKKField) × List String :=
    match se.rowInfo with
    | none => (none, [])
    | some l =>
      let p := parseCellList "Error parsing row info cell: " l
      (some p.1, p.2)
  ({ dynamic := se.dynamicAttr = some "1"
     maxRows := se.maxRowsAttr.getD 0
     tableName := jsOrUndef se.tableNameAttr
     tablePath := jsOrUndef se.tablePathAttr
     id := jsOrUndef se.idAttr
     iColumnSTT := se.iColumnSTT
     iColumnSTTReport := se.iColumnSTTReport
     location := se.location
     cells := cellsParsed.1
     rowInfo := rowParsed.1
     rowData := jsOrUndef se.rowDataText },
   cellsParsed.2 ++ rowParsed.2)

/-- `parseSections` from `htkk-parser.ts`: every section element yields a
section; errors are accumulated in document order. -/
def parseSections : List SectionElement → List HTKKSection × List String
  | [] => ([], [])
  | se :: rest =>
    let head := parseSection se
    let tail := parseSections rest
    (head.1 :: tail.1, head.2 ++ tail.2)

/-- `getFormTitle` from `htkk-parser.ts`. -/
def getFormTitle (formCode : String) : String :=
  if formCode = "01/GTGT" then "Tờ khai thuế giá trị gia tăng"
  else if formCode = "03/TNDN" then "Tờ khai thuế thu nhập doanh nghiệp"
  else if formCode = "02/TNCN" then "Tờ khai thuế thu nhập cá nhân"
  else if formCode = "01/BVMT" then "Tờ khai thuế bảo vệ môi trường"
  else if formCode = "05/TTDB" then "Tờ khai thuế tiêu thụ đặc biệt"
  else "Tờ khai " ++ formCode

/-- `getFormDescription` from `htkk-parser.ts`. -/
def getFormDescription (formCode : String) : String :=
  if formCode = "01/GTGT" then "Tờ khai thuế giá trị gia tăng theo Thông tư 80/2021/TT-BTC"
  else if formCode = "03/TNDN" then "Tờ khai thuế thu nhập doanh nghiệp theo Nghị định 132/2020/NĐ-CP"
  else if formCode = "02/TNCN" then "Tờ khai thuế thu nhập cá nhân theo Thông tư 80/2021/TT-BTC"
  else if formCode = "01/BVMT" then "Tờ khai thuế bảo vệ môi trường"
  else if formCode = "05/TTDB" then "Tờ khai thuế tiêu thụ đặc biệt"
  else "Tờ khai thuế " ++ formCode

/-! ## Parser-side template validation (`validateTemplate` and helpers) -/

/-- The per-field error/warning lists built by the parser's private
`validateField` (before they are stored into the `fieldErrors` /
`fieldWarnings` records under `field.path`). -/
def validateFieldMsgs (field : HTKKField) : List String × List String :=
  let errors :=
    (if field.cellId = "" then ["CellID is required"] else []) ++
    (if field.path = "" then ["Path is required"] else [])
  let errors := errors ++
    (match field.controlType with
     | .NUMBER =>
       match field.minValue, field.maxValue with
       | some a, some b => if a > b then ["MinValue cannot be greater than MaxValue"] else []
       | _, _ => []
     | .DEPENDENT_DROPDOWN =>
       if jsFalsyOptStr field.parentCell then ["Dependent dropdown must have parentCell"] else []
     | _ => [])
  let warnings :=
    match field.controlType with
    | .TAX_CODE =>
      match field.maxLen with
      | some m => if m ≠ 0 && m ≠ 14 then ["Tax code fields typically have maxLen of 14"] else []
      | none => []
    | _ => []
  (errors, warnings)

/-- The section-level errors `validateSection` pushes into the shared
top-level error list (dynamic-section requirements only; per-field results
go into the records instead). -/
def validateSectionErrs (s : HTKKSection) : List String :=
  if s.dynamic then
    (if jsFalsyOptStr s.tableName then ["Dynamic section must have tableName"] else []) ++
    (if jsFalsyOptStr s.tablePath then ["Dynamic section must have tablePath"] else []) ++
    (if (s.rowInfo.getD []).isEmpty then ["Dynamic section must have rowInfo"] else [])
  else []

/-- The fields `validateSection` walks: the row template for a dynamic
section, the cells otherwise. -/
def sectionValidatedFields (s : HTKKSection) : List HTKKField :=
  if s.dynamic then s.rowInfo.getD [] else s.cells

/-- The `fieldErrors`/`fieldWarnings` records accumulated across all
sections by `validateSection`/`validateField` (stored only when non-empty,
keyed by `field.path`). -/
def validateTemplateFieldMaps (sections : List HTKKSection) :
    List (String × List String) × List (String × List String) :=
  sections.foldl
    (fun acc s =>
      (sectionValidatedFields s).foldl
        (fun acc2 f =>
          let msgs := validateFieldMsgs f
          let fe := if msgs.1.isEmpty then acc2.1 else recordSet acc2.1 f.path msgs.1
          let fw := if msgs.2.isEmpty then acc2.2 else recordSet acc2.2 f.path msgs.2
          (fe, fw))
        acc)
    ([], [])

/-- The parser's score formula (`htkk-parser.ts` line 430):
`Math.max(0, 100 - errors*10 - warnings*2)`. -/
def scoreParser (errors warnings : Nat) : Int :=
  max 0 (100 - (errors : Int) * 10 - (warnings : Int) * 2)

/-- `validateTemplate` from `htkk-parser.ts`. The top-level `warnings` list
is never appended to by `validateSection` (field warnings land only in the
`fieldWarnings` record), so `warningCount = 0`. -/
def validateTemplate (t : HTKKTemplate) : HTKKValidationResult :=
  let errors :=
    (if t.version = "" then ["Template version is required"] else []) ++
    (if t.formCode = "" then ["Form code is required"] else []) ++
    (if t.sections.isEmpty then ["Template must have at least one section"] else []) ++
    (t.sections.map validateSectionErrs).flatten
  let maps := validateTemplateFieldMaps t.sections
  { isValid := errors.isEmpty
    fieldErrors := maps.1
    fieldWarnings := maps.2
    businessRuleErrors := errors
    crossFieldErrors := []
    complianceErrors := []
    missingRequiredFields := []
    calculationErrors := []
    errorCount := errors.length
    warningCount := 0
    validationScore := scoreParser errors.length 0 }

/-- `parseTemplate` from `htkk-parser.ts`, on the cache-miss path (the
template cache is modelled separately; a cache hit short-circuits with the
cached template and the single warning "Template loaded from cache").
Notes on fidelity:
* root-tag check and version default follow lines 88-95;
* when `validateOnParse` is set and validation fails, only
  `businessRuleErrors` are appended to `errors`; the warning append is
  `validation.fieldWarnings.flat ? ... : []` and a JS plain object has no
  `flat` property, so nothing is ever appended to `warnings`;
* `success` is `errors.length === 0` and the template is returned only on
  success. -/
def parseTemplateAssembled (doc : SectionsDoc) (formCode : String) : HTKKTemplate :=
  { version := jsOr doc.versionAttr "unknown"
    formCode := formCode
    sections := (parseSections doc.sections).1
    metadata :=
      { title := getFormTitle formCode
        description := getFormDescription formCode
        dtdPath := doc.dtdPath } }

/-- The error list `parseTemplate` ends up with: the structural errors of
the section loop, plus — when `validateOnParse` is set and validation
fails — the validation's business-rule errors. -/
def parseTemplateErrs (config : ParserConfig) (doc : SectionsDoc) (formCode : String) :
    List String :=
  if config.validateOnParse then
    let v := validateTemplate (parseTemplateAssembled doc formCode)
    if v.isValid then (parseSections doc.sections).2
    else (parseSections doc.sections).2 ++ v.businessRuleErrors
  else (parseSections doc.sections).2

def parseTemplateCore (config : ParserConfig) (doc : SectionsDoc) (formCode : String) :
    ParseResult :=
  if doc.rootTag ≠ "Sections" then
    { success := false, template := none
      errors := ["Root element must be <Sections>"], warnings := [] }
  else
    { success := (parseTemplateErrs config doc formCode).isEmpty
      template :=
        if (parseTemplateErrs config doc formCode).isEmpty then
          some (parseTemplateAssembled doc formCode)
        else none
      errors := parseTemplateErrs config doc formCode
      warnings := [] }

/-! ## Template cache (`loadTemplate`, `getCachedTemplate`) -/

/-- `getCachedTemplate` from `htkk-parser.ts`: scans the whole cache and
returns the first entry whose **template `formCode`** matches — the cache
key (a content hash), the template version and the source content play no
part in the lookup. -/
def getCachedTemplate (cache : List (String × HTKKTemplate)) (formCode : String) :
    Option HTKKTemplate :=
  ((cache.find? (fun p => p.2.formCode = formCode)).map (fun p => p.2))

/-- First-occurrence replacement, JS `s.replace('/', '_')` (only the first
match is replaced). -/
def jsReplaceFirstSlash : List Char → List Char
  | [] => []
  | c :: rest => if c = '/' then '_' :: rest else c :: jsReplaceFirstSlash rest

/-- `getDefaultTemplateUrl` from `htkk-parser.ts`, with the environment base
URL defaulted (`process.env.REACT_APP_TEMPLATE_BASE_URL || '/templates'`). -/
def getDefaultTemplateUrl (formCode : String) : String :=
  "/templates/" ++ String.mk (jsReplaceFirstSlash formCode.data) ++ ".xml"

/-- The external template fetch (`fetch(url)` + `DOMParser`), supplied by
the browser: maps a URL to either an error (non-ok response) or the
DOM-parsed document of the response body. -/
structure LoaderEnv where
  fetchDoc : String → Except String SectionsDoc

/-- `loadTemplate` from `htkk-parser.ts`: try the formCode-keyed cache scan
first and return the cached template with no fetch at all; only on a miss
compute the URL (argument or default), fetch, and parse. -/
def loadTemplate (env : LoaderEnv) (config : ParserConfig)
    (cache : List (String × HTKKTemplate)) (formCode : String)
    (templateUrl : Option String) : ParseResult :=
  match getCachedTemplate cache formCode with
  | some t =>
    { success := true, template := some t
      errors := [], warnings := ["Template loaded from cache"] }
  | none =>
    let url := jsOr templateUrl (getDefaultTemplateUrl formCode)
    match env.fetchDoc url with
    | .error e =>
      { success := false, template := none
        errors := ["Failed to load template: " ++ e], warnings := [] }
    | .ok doc => parseTemplateCore config doc formCode

/-! ## Concurrent cache discipline of `parseTemplate`

`parseTemplate` reads the cache (`templateCache.has(cacheKey)`, line 66)
and, a parse later, writes it (`templateCache.set(cacheKey, template)`,
lines 122-125). Between the two sit `await` points
(`parseSections`/`parseSection`), so on the JS event loop a second
`parseTemplate` call for the same key can run its cache check before the
first call's write. Crucially, the cache stores only the **template**: a
caller served from the cache gets a freshly built ParseResult wrapping
that template with the warning "Template loaded from cache" (lines 67-73)
— not the ParseResult the parsing caller got. The model below captures
exactly that discipline for one fixed (source, formCode): each caller is
either about to run the cache check, about to run the parse-and-insert, or
done with a ParseResult; a schedule is the interleaving order. -/

/-- Progress of one `parseTemplate` caller for a fixed cache key. -/
inductive ParsePhase (T : Type)
  | toCheck
  | toParse
  | done (result : T)
deriving DecidableEq, Repr

/-- Shared state of the concurrent callers: the template-cache entry for
the shared key (a template, not a ParseResult), each caller's progress,
and the number of parse executions performed so far. -/
structure ParseFlightState where
  cache : Option HTKKTemplate
  phases : List (ParsePhase ParseResult)
  parseCount : Nat
deriving DecidableEq, Repr

/-- The ParseResult `parseTemplate` returns on a cache hit (lines 66-74):
success, the cached template, no errors, and the single warning
"Template loaded from cache". -/
def cacheHitResult (t : HTKKTemplate) : ParseResult :=
  { success := true, template := some t
    errors := [], warnings := ["Template loaded from cache"] }

/-- One scheduler step: caller `i` runs its next atomic piece of
`parseTemplate`. The cache check (guarded by `config.cacheTemplates`, line
66) either finishes with the cache-hit wrapper of the cached template or
commits the caller to parsing; the parse step computes the full parse
result and finishes, storing the assembled template in the cache when
control reaches `templateCache.set` — i.e. when the root tag was right
(the wrong-root path returns at line 91, before the set) and
`config.cacheTemplates` holds. -/
def flightStep (config : ParserConfig) (doc : SectionsDoc) (formCode : String)
    (s : ParseFlightState) (i : Nat) : ParseFlightState :=
  match s.phases[i]? with
  | some ParsePhase.toCheck =>
    if config.cacheTemplates then
      match s.cache with
      | some t => { s with phases := s.phases.set i (ParsePhase.done (cacheHitResult t)) }
      | none => { s with phases := s.phases.set i ParsePhase.toParse }
    else { s with phases := s.phases.set i ParsePhase.toParse }
  | some ParsePhase.toParse =>
    { cache :=
        if doc.rootTag ≠ "Sections" then s.cache
        else if config.cacheTemplates then some (parseTemplateAssembled doc formCode)
        else s.cache
      phases := s.phases.set i (ParsePhase.done (parseTemplateCore config doc formCode))
      parseCount := s.parseCount + 1 }
  | _ => s

/-- Run `n` concurrent `parseTemplate` callers for the same uncached key
(shared `doc`/`formCode`) under the interleaving `sched`. -/
def runParseFlight (config : ParserConfig) (doc : SectionsDoc) (formCode : String)
    (n : Nat) (sched : List Nat) : ParseFlightState :=
  sched.foldl (flightStep config doc formCode)
    { cache := none, phases := List.replicate n ParsePhase.toCheck, parseCount := 0 }

/-! ## Form engine (`htkk-form-engine.ts`) -/

/-- The browser facilities the engine leans on: `new Date(value)` validity
(`isValidDate`), `new RegExp(pattern).test(value)`, and `DOMParser`
well-formedness of a produced XML string. -/
structure EngineEnv where
  isValidDate : JsValue → Bool
  regexTest : String → String → Bool
  xmlWellFormed : String → Bool

/-- `ValidationRule` from `htkk-form-engine.ts`: a caller-supplied rule; the
`validator` receives the field value and the form data. -/
structure ValidationRule where
  id : String
  rtype : String
  message : String
  validator : JsValue → HTKKFormData → Bool

/-- `FieldValidation` from `htkk-form-engine.ts`. -/
structure FieldValidation where
  required : Bool
  minLength : Option Int
  maxLength : Option Int
  minValue : Option Int
  maxValue : Option Int
  pattern : Option String
  customRules : List ValidationRule

/-- `RenderedField` from `htkk-form-engine.ts` (the pieces validation and
metadata read; `dependencies`, `options`, `formatting`, `helpText` and
`aiMapping` are presentation-only and omitted). -/
structure RenderedField where
  id : String
  cellId : String
  path : String
  label : String
  ctype : HTKKControlType
  required : Bool
  value : String
  placeholder : String
  validation : FieldValidation

/-- `SectionValidation` from `htkk-form-engine.ts`. -/
structure SectionValidation where
  required : Bool
  minRows : Option Int
  maxRows : Option Int
  customRules : List ValidationRule

/-- `RenderedSection` from `htkk-form-engine.ts` (validation-relevant
pieces). -/
structure RenderedSection where
  id : String
  title : String
  description : Option String
  dynamic : Bool
  maxRows : Int
  fields : List RenderedField
  validation : SectionValidation

/-- `FormStructure` from `htkk-form-engine.ts` (`metadata`, the derived
field counts, is not read by validation or export). -/
structure FormStructure where
  template : HTKKTemplate
  sections : List RenderedSection

/-- The engine's field-label map; `initializeFieldLabels` is a no-op, so it
is empty. -/
def engineFieldLabels : List (String × String) := []

/-- The engine's business-rule registry; `initializeValidationRules` is a
no-op, so every form code maps to no rules. -/
def engineValidationRules : List (String × List ValidationRule) := []

/-- `getFieldLabel`: `fieldLabels.get(field.path) || field.cellId`. -/
def getFieldLabel (field : HTKKField) : String :=
  jsOr ((engineFieldLabels.find? (fun p => p.1 = field.path)).map (fun p => p.2)) field.cellId

/-- `isFieldRequired` from `htkk-form-engine.ts` (lines 756-759): required
iff the path contains the substring "required" or the cellId starts with
"R_". There is no required flag on `HTKKField`; this is purely
naming-based. -/
def isFieldRequired (field : HTKKField) : Bool :=
  strContains field.path "required" || jsStartsWith field.cellId "R_"

/-- `getFieldPlaceholder` from `htkk-form-engine.ts`. -/
def getFieldPlaceholder (field : HTKKField) : String :=
  match field.controlType with
  | .TAX_CODE => "e.g., 0123456789"
  | .DATE => "dd/mm/yyyy"
  | .NUMBER => "Enter number"
  | _ => ""

/-- `getFieldValidation` from `htkk-form-engine.ts`: minLength 10 for tax
codes, maxLength from `maxLen`, numeric bounds only when numeric, no
pattern, no custom rules. -/
def getFieldValidation (field : HTKKField) : FieldValidation :=
  { required := isFieldRequired field
    minLength := if field.controlType = .TAX_CODE then some 10 else none
    maxLength := field.maxLen
    minValue := field.minValue
    maxValue := field.maxValue
    pattern := none
    customRules := [] }

/-- `renderField` from `htkk-form-engine.ts` (validation-relevant pieces). -/
def renderField (field : HTKKField) : RenderedField :=
  { id := field.cellId
    cellId := field.cellId
    path := field.path
    label := getFieldLabel field
    ctype := field.controlType
    required := isFieldRequired field
    value := field.value
    placeholder := getFieldPlaceholder field
    validation := getFieldValidation field }

/-- `getSectionTitle` from `htkk-form-engine.ts`. -/
def getSectionTitle (sect : HTKKSection) (index : Nat) : String :=
  jsOr sect.tableName ("Section " ++ toString (index + 1))

/-- `getSectionDescription` from `htkk-form-engine.ts`. -/
def getSectionDescription (sect : HTKKSection) : Option String :=
  if jsFalsyOptStr sect.tablePath then none
  else some ("Table: " ++ sect.tablePath.getD "")

/-- `getSectionValidation` from `htkk-form-engine.ts` (lines 841-847):
`maxRows` is carried as metadata for dynamic sections; no custom rules. -/
def getSectionValidation (sect : HTKKSection) : SectionValidation :=
  { required := !sect.dynamic
    minRows := none
    maxRows := if sect.dynamic then some sect.maxRows else none
    customRules := [] }

/-- `renderSection` from `htkk-form-engine.ts`. -/
def renderSection (sect : HTKKSection) (index : Nat) : RenderedSection :=
  let fields := if sect.dynamic then sect.rowInfo.getD [] else sect.cells
  { id := jsOr sect.id ("section_" ++ toString index)
    title := getSectionTitle sect index
    description := getSectionDescription sect
    dynamic := sect.dynamic
    maxRows := sect.maxRows
    fields := fields.map renderField
    validation := getSectionValidation sect }

/-- `renderSections` from `htkk-form-engine.ts`. -/
def renderSections (sections : List HTKKSection) : List RenderedSection :=
  sections.enum.map (fun p => renderSection p.2 p.1)

/-! ## Engine data validation (`validateForm` and helpers) -/

/-- JS truthiness of a value (`if (value)`). -/
def jsTruthy : JsValue → Bool
  | .undefined => false
  | .null => false
  | .str s => !(s = "")
  | .num n => !(n = 0)

/-- The engine's empty test `value === null || value === undefined ||
value === ''`. -/
def isEmptyish (v : JsValue) : Bool :=
  v = .null || v = .undefined || v = .str ""

/-- JS `Number(value)` (`none` = `NaN`; fractional literals are not
modelled — every numeric constraint in the engine is integral). -/
def jsNumberOf (v : JsValue) : Option Int :=
  match v with
  | .undefined => none
  | .null => some 0
  | .num n => some n
  | .str s =>
    let cs := (s.data.dropWhile (fun c => c = ' ')).reverse.dropWhile (fun c => c = ' ')
    let cs := cs.reverse
    if cs.isEmpty then some 0
    else
      let signAndRest : Bool × List Char :=
        match cs with
        | '-' :: r => (true, r)
        | '+' :: r => (false, r)
        | r => (false, r)
      if !signAndRest.2.isEmpty && signAndRest.2.all (fun c => '0' ≤ c && c ≤ '9') then
        some ((if signAndRest.1 then -1 else 1) * (digitsVal signAndRest.2 : Int))
      else none

/-- JS `String(value)`. -/
def jsToString : JsValue → String
  | .undefined => "undefined"
  | .null => "null"
  | .str s => s
  | .num n => toString n

/-- The tax-code pattern `/^\d{10}(-\d{3})?$/`: ten digits, optionally a
dash and three more. -/
def taxCodePatternOk (s : String) : Bool :=
  let cs := s.data
  let tenDigits := fun l : List Char => l.length = 10 && l.all (fun c => '0' ≤ c && c ≤ '9')
  (tenDigits cs) ||
  (cs.length = 14 && tenDigits (cs.take 10) && (cs.drop 10).headD ' ' = '-' &&
    (cs.drop 11).all (fun c => '0' ≤ c && c ≤ '9'))

/-- The engine's private `validateField` (lines 522-598): required check,
control-type switch (number / tax code / date), string length bounds,
pattern, then custom rules (business-tagged failures are errors, others
warnings). Returns `(errors, warnings)`. -/
def engineValidateField (env : EngineEnv) (field : RenderedField) (value : JsValue)
    (formData : HTKKFormData) : List String × List String :=
  let errors :=
    if field.required && isEmptyish value then [field.label ++ " is required"] else []
  let errors := errors ++
    (match field.ctype with
     | .NUMBER =>
       if !isEmptyish value then
         match jsNumberOf value with
         | none => [field.label ++ " must be a valid number"]
         | some n =>
           (match field.validation.minValue with
            | some m => if n < m then [field.label ++ " must be at least " ++ toString m] else []
            | none => []) ++
           (match field.validation.maxValue with
            | some m => if n > m then [field.label ++ " must be at most " ++ toString m] else []
            | none => [])
       else []
     | .TAX_CODE =>
       match value with
       | .str s =>
         if s = "" then []
         else if taxCodePatternOk s then []
         else [field.label ++ " must be a valid tax code format"]
       | _ => []
     | .DATE =>
       if jsTruthy value && !env.isValidDate value then
         [field.label ++ " must be a valid date"]
       else []
     | _ => [])
  let errors := errors ++
    (match value with
     | .str s =>
       if s = "" then []
       else
         (match field.validation.minLength with
          | some m =>
            if m ≠ 0 && (s.length : Int) < m then
              [field.label ++ " must be at least " ++ toString m ++ " characters"]
            else []
          | none => []) ++
         (match field.validation.maxLength with
          | some m =>
            if m ≠ 0 && (s.length : Int) > m then
              [field.label ++ " must be at most " ++ toString m ++ " characters"]
            else []
          | none => [])
     | _ => [])
  let errors := errors ++
    (if jsTruthy value then
       match field.validation.pattern with
       | some p => if env.regexTest p (jsToString value) then [] else [field.label ++ " format is invalid"]
       | none => []
     else [])
  field.validation.customRules.foldl
    (fun acc rule =>
      if rule.validator value formData then acc
      else if rule.rtype = "business" then (acc.1 ++ [rule.message], acc.2)
      else (acc.1, acc.2 ++ [rule.message]))
    (errors, [])

/-- `validateBusinessRules`: the rule registry is empty
(`initializeValidationRules` is a no-op), so the lookup misses for every
form code and no error is ever produced. -/
def validateBusinessRules (formCode : String) (formData : HTKKFormData) : List String :=
  ((engineValidationRules.find? (fun p => p.1 = formCode)).map (fun _ => ([] : List String))).getD []

/-- `validateCrossFields` returns an empty list (the source body is a stub
returning `[]`). -/
def validateCrossFields (formStructure : FormStructure) (formData : HTKKFormData) :
    List String :=
  []

/-- `checkRequiredFields` from `htkk-form-engine.ts`: required fields whose
value in `formData.data` is null/undefined/empty, in section/field order. -/
def checkRequiredFields (formStructure : FormStructure) (formData : HTKKFormData) :
    List String :=
  formStructure.sections.foldl
    (fun acc s =>
      s.fields.foldl
        (fun a f =>
          if f.required && isEmptyish (recordGet formData.data f.path) then a ++ [f.path]
          else a)
        acc)
    []

/-- The engine's score formula (`htkk-form-engine.ts` line 340):
`Math.max(0, 100 - errorCount*5 - warningCount*2)`. -/
def scoreEngine (errors warnings : Nat) : Int :=
  max 0 (100 - (errors : Int) * 5 - (warnings : Int) * 2)

/-- Accumulator of the per-field loop of `validateForm`. -/
structure FieldAcc where
  fieldErrors : List (String × List String)
  fieldWarnings : List (String × List String)
  errorCount : Nat
  warningCount : Nat
deriving DecidableEq, Repr

/-- One iteration of `validateForm`'s per-field loop. -/
def validateFormStep (env : EngineEnv) (formData : HTKKFormData) (acc : FieldAcc)
    (field : RenderedField) : FieldAcc :=
  let fieldValue := recordGet formData.data field.path
  let msgs := engineValidateField env field fieldValue formData
  let acc :=
    if msgs.1.isEmpty then acc
    else { acc with fieldErrors := recordSet acc.fieldErrors field.path msgs.1
                    errorCount := acc.errorCount + msgs.1.length }
  if msgs.2.isEmpty then acc
  else { acc with fieldWarnings := recordSet acc.fieldWarnings field.path msgs.2
                  warningCount := acc.warningCount + msgs.2.length }

/-- The nested section/field loop of `validateForm`. -/
def validateFormAcc (env : EngineEnv) (formStructure : FormStructure)
    (formData : HTKKFormData) : FieldAcc :=
  formStructure.sections.foldl
    (fun a s => s.fields.foldl (validateFormStep env formData) a)
    { fieldErrors := [], fieldWarnings := [], errorCount := 0, warningCount := 0 }

/-- `validateForm` from `htkk-form-engine.ts` (lines 287-350): per-field
validation, business rules, cross-field checks, required-fields check, then
score and validity. Submitted dynamic rows (`formData.dynamicData`) are
never consulted, and no row-count check against `maxRows` exists. -/
def validateForm (env : EngineEnv) (formStructure : FormStructure)
    (formData : HTKKFormData) : HTKKValidationResult :=
  let acc := validateFormAcc env formStructure formData
  let businessRuleErrors := validateBusinessRules formStructure.template.formCode formData
  let crossFieldErrors := validateCrossFields formStructure formData
  let missing := checkRequiredFields formStructure formData
  let errorCount :=
    acc.errorCount + businessRuleErrors.length + crossFieldErrors.length + missing.length
  { isValid := errorCount = 0
    fieldErrors := acc.fieldErrors
    fieldWarnings := acc.fieldWarnings
    businessRuleErrors := businessRuleErrors
    crossFieldErrors := crossFieldErrors
    complianceErrors := []
    missingRequiredFields := missing
    calculationErrors := []
    errorCount := errorCount
    warningCount := acc.warningCount
    validationScore := scoreEngine errorCount acc.warningCount }

/-! ## Exporter (`exportToXML`, `generateHTKKXML`, `validateXMLStructure`) -/

/-- `generateHTKKXML` from `htkk-form-engine.ts` (lines 657-673): the body
is a fixed template literal — a placeholder skeleton whose only content is
the comment "Form data would be inserted here". Neither the template nor
the form data influences the output. -/
def generateHTKKXML (template : HTKKTemplate) (formData : HTKKFormData) : String :=
  let xmlHeader := "<?xml version=\"1.0\" encoding=\"UTF-8\"?>"
  let xmlContent := "\n      <HSoThueDTu>\n        <HSoKhaiThue>\n          <CTieuTKhaiChinh>\n            <!-- Form data would be inserted here -->\n          </CTieuTKhaiChinh>\n        </HSoKhaiThue>\n      </HSoThueDTu>\n    "
  xmlHeader ++ xmlContent

/-- Result of `validateXMLStructure`. -/
structure XMLStructureCheck where
  isValid : Bool
  htkkCompliant : Bool
  errors : List String
  warnings : List String
deriving DecidableEq, Repr

/-- `validateXMLStructure` from `htkk-form-engine.ts`: well-formedness via
`DOMParser` (browser, abstracted in `EngineEnv`) and "HTKK compliance" as a
plain substring check for `HSoThueDTu`. -/
def validateXMLStructure (env : EngineEnv) (xmlContent : String) : XMLStructureCheck :=
  let wf := env.xmlWellFormed xmlContent
  let compliant := strContains xmlContent "HSoThueDTu"
  { isValid := wf
    htkkCompliant := compliant
    errors := if wf then [] else ["Invalid XML structure"]
    warnings := if compliant then [] else ["Missing HTKK root element"] }

/-- `HTKKXMLExportResult` from `htkk-schema.ts` (`exportedAt` omitted:
wall clock). `xmlSize` is `new Blob([xml]).size`, the UTF-8 byte length. -/
structure HTKKXMLExportResult where
  success : Bool
  xmlContent : String
  xmlSize : Nat
  isValidXML : Bool
  htkkCompliant : Bool
  formCode : String
  templateVersion : String
  errors : List String
  warnings : List String
deriving DecidableEq, Repr

/-- `exportToXML` from `htkk-form-engine.ts` (lines 355-405): validate the
form (failures only annotate `errors`/`warnings`, they do not stop the
export), generate the XML, check its structure, and report. -/
def exportToXML (env : EngineEnv) (formStructure : FormStructure)
    (formData : HTKKFormData) : HTKKXMLExportResult :=
  let validation := validateForm env formStructure formData
  let preErrors := if validation.isValid then [] else ["Form validation failed"]
  let preWarnings :=
    if validation.isValid then []
    else [toString validation.errorCount ++ " validation errors found"]
  let xmlContent := generateHTKKXML formStructure.template formData
  let xv := validateXMLStructure env xmlContent
  { success := xv.isValid && xv.htkkCompliant
    xmlContent := xmlContent
    xmlSize := xmlContent.utf8ByteSize
    isValidXML := xv.isValid
    htkkCompliant := xv.htkkCompliant
    formCode := formStructure.template.formCode
    templateVersion := formStructure.template.version
    errors := preErrors ++ (if xv.isValid then [] else xv.errors)
    warnings := preWarnings ++ (if xv.htkkCompliant then [] else xv.warnings) }

/-! ## Concrete instances used by the claim theorems -/

/-- A benign browser environment (concrete values for the abstracted
browser functions; no claim depends on their behaviour). -/
def defaultEnv : EngineEnv :=
  { isValidDate := fun _ => true
    regexTest := fun _ _ => true
    xmlWellFormed := fun _ => true }

/-- A `<Cell>` element with every attribute absent. -/
def blankCell : CellElement :=
  { cellId := none, cellId2 := none, path := none, controltypeAttr := none
    encodeAttr := none, valueAttr := none, defaultValueAttr := none
    maxLen := none, minValue := none, maxValue := none, helpContextId := none
    selectedValue := none, parentCell := none, childCell := none, statusId := none }

/-- A `<Section>` element with every attribute/child absent. -/
def blankSection : SectionElement :=
  { dynamicAttr := none, maxRowsAttr := none, tableNameAttr := none
    tablePathAttr := none, idAttr := none, iColumnSTT := none
    iColumnSTTReport := none, location := none, cells := none
    rowInfo := none, rowDataText := none }

/-- C2 input: a structurally complete cell whose control-type code `9999`
is not in the catalogue. -/
def cellC2 : CellElement :=
  { blankCell with cellId := some "F1", path := some "p", controltypeAttr := some "9999" }

/-- C2 input: a well-formed document whose only field carries unknown
control-type code `9999`. -/
def docC2 : SectionsDoc :=
  { rootTag := "Sections", versionAttr := some "1"
    sections := [{ blankSection with cells := some [cellC2] }], dtdPath := none }

/-- C3 input: a cell with a `CellID` but no `Path` attribute. -/
def cellC3 : CellElement :=
  { blankCell with cellId := some "F1", controltypeAttr := some "0" }

/-- C3 input: a document whose only field is missing its `Path`. -/
def docC3 : SectionsDoc :=
  { rootTag := "Sections", versionAttr := some "1"
    sections := [{ blankSection with cells := some [cellC3] }], dtdPath := none }

/-- C4 input: a dependent dropdown (code 6) with no `ParentCell`. -/
def cellC4a : CellElement :=
  { blankCell with cellId := some "D_1", path := some "p1", controltypeAttr := some "6" }

/-- C4 input: a number field (code 16) with `MinValue 5 > MaxValue 3`. -/
def cellC4b : CellElement :=
  { blankCell with cellId := some "N_1", path := some "p2", controltypeAttr := some "16"
                   minValue := some 5, maxValue := some 3 }

/-- C4 input: a document whose only defects are the two template defects of
the claim (broken dependency reference, inverted numeric bounds). -/
def docC4 : SectionsDoc :=
  { rootTag := "Sections", versionAttr := some "1"
    sections := [{ blankSection with cells := some [cellC4a, cellC4b] }], dtdPath := none }

/-- C5 input: a field whose naming carries no required marker. -/
def fldX : HTKKField :=
  { cellId := "X_1", cellId2 := none, path := "a/b", controlType := .TEXT
    encode := false, value := "", defaultValue := none, maxLen := none
    minValue := none, maxValue := none, helpContextId := none
    selectedValue := none, parentCell := none, childCell := none, statusId := none }

/-- C5 input: the same field except that its cellId starts with `R_`. -/
def fldR : HTKKField :=
  { fldX with cellId := "R_1" }

/-- C6/C8 shared shape: an empty-data form instance. -/
def fdEmpty : HTKKFormData :=
  { formCode := "01/GTGT", templateVersion := "1", data := [], dynamicData := [] }

/-- C6 input: the single (optional, TEXT) column of the dynamic section's
row template. -/
def fieldC6 : HTKKField :=
  { cellId := "A_1", cellId2 := none, path := "tbl/col", controlType := .TEXT
    encode := false, value := "", defaultValue := none, maxLen := none
    minValue := none, maxValue := none, helpContextId := none
    selectedValue := none, parentCell := none, childCell := none, statusId := none }

/-- C6 input: a dynamic section declaring `maxRows = 2`. -/
def sectionC6 : HTKKSection :=
  { dynamic := true, maxRows := 2, tableName := some "T", tablePath := some "TP"
    id := some "S1", iColumnSTT := none, iColumnSTTReport := none, location := none
    cells := [], rowInfo := some [fieldC6], rowData := none }

/-- C6 input: the template holding that dynamic section. -/
def templateC6 : HTKKTemplate :=
  { version := "1", formCode := "01/GTGT", sections := [sectionC6]
    metadata := { title := "t", description := "d", dtdPath := none } }

/-- C6 input: the rendered form structure of `templateC6`. -/
def fsC6 : FormStructure :=
  { template := templateC6, sections := renderSections [sectionC6] }

/-- C6 input: one submitted row of the dynamic section. -/
def rowC6 : List (String × JsValue) := [("tbl/col", .str "x")]

/-- C6 input: form data submitting three rows against `maxRows = 2`. -/
def fdC6threeRows : HTKKFormData :=
  { formCode := "01/GTGT", templateVersion := "1", data := []
    dynamicData := [("TP", [rowC6, rowC6, rowC6])] }

/-- C8 input: a TAX_CODE field (no required marker in its naming, no
`MaxLen`). -/
def taxFieldC8 : HTKKField :=
  { cellId := "T_1", cellId2 := none, path := "a/b", controlType := .TAX_CODE
    encode := false, value := "", defaultValue := none, maxLen := none
    minValue := none, maxValue := none, helpContextId := none
    selectedValue := none, parentCell := none, childCell := none, statusId := none }

/-- C8 input: the rendered TAX_CODE field (label `T_1`, minLength 10). -/
def taxRenderedC8 : RenderedField := renderField taxFieldC8

/-- C1 input: a one-field static template. -/
def templateC1 : HTKKTemplate :=
  { version := "1", formCode := "01/GTGT", sections := [
      { dynamic := false, maxRows := 0, tableName := none, tablePath := none
        id := none, iColumnSTT := none, iColumnSTTReport := none, location := none
        cells := [fldX], rowInfo := none, rowData := none }]
    metadata := { title := "t", description := "d", dtdPath := none } }

/-- C1 input: the rendered form structure of `templateC1`. -/
def fsC1 : FormStructure :=
  { template := templateC1, sections := renderSections templateC1.sections }

/-- C1 input: form data whose only field holds the value "HELLO". -/
def fdC1 : HTKKFormData :=
  { formCode := "01/GTGT", templateVersion := "1"
    data := [("a/b", .str "HELLO")], dynamicData := [] }

/-- C9 input: a structurally complete TEXT cell. -/
def cellC9 : CellElement :=
  { blankCell with cellId := some "F1", path := some "p", controltypeAttr := some "0" }

/-- C9 input: a minimal well-formed document for the coalescing scenario. -/
def docC9 : SectionsDoc :=
  { rootTag := "Sections", versionAttr := some "1"
    sections := [{ blankSection with cells := some [cellC9] }], dtdPath := none }

/-- C9 input: the parse result of the shared (source, formCode) — what a
caller that executes the parse itself receives. -/
def resC9 : ParseResult := parseTemplateCore defaultParserConfig docC9 "01/GTGT"

/-- C10 input: a stale cached template for form code 01/GTGT (old version,
empty body). -/
def tOld : HTKKTemplate :=
  { version := "480", formCode := "01/GTGT", sections := []
    metadata := { title := "old", description := "old", dtdPath := none } }

/-- C10 input: a parser cache containing only the stale template. -/
def cacheC10 : List (String × HTKKTemplate) := [("01/GTGT_12345", tOld)]

/-- C10 input: a loader that fails on any fetch (any fetch attempt would be
visible as a load failure). -/
def loaderOffline : LoaderEnv := { fetchDoc := fun _ => .error "offline" }

/-- C10 input: a loader that would serve a different document. -/
def loaderServes : LoaderEnv := { fetchDoc := fun _ => .ok docC9 }

/-- A cell element carrying the three attributes `parseField` requires
(`CellID`, `Path`, control type), each non-empty. -/
def cellAttrsOk (c : CellElement) : Bool :=
  !jsFalsyOptStr c.cellId && !jsFalsyOptStr c.path && !jsFalsyOptStr c.controltypeAttr

/-- A section element all of whose cells are structurally complete and
which, when dynamic, carries the attributes `validateSection` demands
(table name, table path, non-empty row template). -/
def sectionWellFormed (se : SectionElement) : Bool :=
  (se.cells.getD []).all cellAttrsOk &&
  (se.rowInfo.getD []).all cellAttrsOk &&
  (if se.dynamicAttr = some "1" then
     !jsFalsyOptStr se.tableNameAttr && !jsFalsyOptStr se.tablePathAttr &&
       !(se.rowInfo.getD []).isEmpty
   else true)

/-- The section element of `docC3` (named for the witness). -/
def secC3 : SectionElement := { blankSection with cells := some [cellC3] }

/-- The fixed output `generateHTKKXML` produces for every input (named so
closed propositions about the exporter can be decided). -/
def htkkStubOutput : String :=
  generateHTKKXML
    { version := "", formCode := "", sections := []
      metadata := { title := "", description := "", dtdPath := none } }
    { formCode := "", templateVersion := "", data := [], dynamicData := [] }

/-! ## Helper lemmas -/

/-- A list with a member is not `isEmpty`. -/
theorem isEmpty_false_of_mem {α : Type} {l : List α} {a : α} (h : a ∈ l) :
    l.isEmpty = false := by
  cases l with
  | nil => cases h
  | cons x xs => rfl

/-- `a || "unknown"` is never the empty string. -/
theorem jsOr_unknown_ne_empty (a : Option String) : jsOr a "unknown" ≠ "" := by
  unfold jsOr
  split
  · simp
  · rename_i h
    cases a with
    | none => simp [jsFalsyOptStr] at h
    | some s =>
      simp only [jsFalsyOptStr] at h
      simpa [Option.getD] using fun hs => h (by simp [hs])

/-- `|| undefined` preserves falsiness of an optional string. -/
theorem jsFalsy_jsOrUndef (a : Option String) :
    jsFalsyOptStr (jsOrUndef a) = jsFalsyOptStr a := by
  unfold jsOrUndef
  split
  · rename_i h; rw [h]; rfl
  · rfl

/-- Congruence for `List.foldl` when the two step functions agree on every
member of the list. -/
theorem foldl_congr_mem {α β : Type} (l : List α) (f g : β → α → β)
    (hfg : ∀ b a, a ∈ l → f b a = g b a) : ∀ b, l.foldl f b = l.foldl g b := by
  induction l with
  | nil => intro b; rfl
  | cons x rest ih =>
    intro b
    rw [List.foldl_cons, List.foldl_cons, hfg b x (List.mem_cons_self x rest)]
    exact ih (fun b a ha => hfg b a (List.mem_cons_of_mem x ha)) _

/-- A cell missing one of its three required attributes makes `parseField`
throw. -/
theorem parseField_error_of_missing (c : CellElement)
    (h : jsFalsyOptStr c.cellId = true ∨ jsFalsyOptStr c.path = true ∨
         jsFalsyOptStr c.controltypeAttr = true) :
    ∃ msg, parseField c = .error msg := by
  unfold parseField
  split_ifs with h1 h2 h3
  · exact ⟨_, rfl⟩
  · exact ⟨_, rfl⟩
  · exact ⟨_, rfl⟩
  · simp [h1, h2, h3] at h

/-- A cell with its three required attributes present parses to a field. -/
theorem parseField_ok_of_attrs (c : CellElement) (h : cellAttrsOk c = true) :
    ∃ f, parseField c = .ok f := by
  unfold cellAttrsOk at h
  simp only [Bool.and_eq_true, Bool.not_eq_true'] at h
  unfold parseField
  rw [if_neg (by simp [h.1.1]), if_neg (by simp [h.1.2]), if_neg (by simp [h.2])]
  exact ⟨_, rfl⟩

/-- Each failing cell's labelled message is collected by the cell loop. -/
theorem parseCellList_error_mem (label : String) (l : List CellElement)
    (c : CellElement) (hc : c ∈ l) (msg : String) (he : parseField c = .error msg) :
    (label ++ msg) ∈ (parseCellList label l).2 := by
  induction l with
  | nil => cases hc
  | cons a rest ih =>
    rcases List.mem_cons.mp hc with rfl | hmem
    · simp [parseCellList, he]
    · cases hpf : parseField a with
      | ok f => simpa [parseCellList, hpf] using ih hmem
      | error e => simp [parseCellList, hpf, ih hmem]

/-- When every cell is structurally complete the cell loop collects no
errors and keeps one field per cell. -/
theorem parseCellList_allOk (label : String) (l : List CellElement)
    (h : l.all cellAttrsOk = true) :
    (parseCellList label l).2 = [] ∧ (parseCellList label l).1.length = l.length := by
  induction l with
  | nil => exact ⟨rfl, rfl⟩
  | cons a rest ih =>
    rw [List.all_cons, Bool.and_eq_true] at h
    obtain ⟨f, hf⟩ := parseField_ok_of_attrs a h.1
    have tail := ih h.2
    simp [parseCellList, hf, tail.1, tail.2]

/-- Errors collected from a section's `Cells` loop surface in the section's
error list. -/
theorem parseSection_mem_cells (se : SectionElement) (e : String)
    (he : e ∈ (parseCellList "Error parsing cell: " (se.cells.getD [])).2) :
    e ∈ (parseSection se).2 := by
  unfold parseSection
  cases se.rowInfo <;> simp_all

/-- Errors of any section surface in `parseSections`' accumulated list. -/
theorem parseSections_mem (ss : List SectionElement) (se : SectionElement)
    (hse : se ∈ ss) (e : String) (he : e ∈ (parseSection se).2) :
    e ∈ (parseSections ss).2 := by
  induction ss with
  | nil => cases hse
  | cons a rest ih =>
    rcases List.mem_cons.mp hse with rfl | hmem
    · simp [parseSections, he]
    · simp [parseSections, ih hmem]

/-- `parseSections` yields one section per element. -/
theorem parseSections_length (ss : List SectionElement) :
    (parseSections ss).1.length = ss.length := by
  induction ss with
  | nil => rfl
  | cons a rest ih => simp [parseSections, ih]

/-- Any structural error of the section loop survives into
`parseTemplateErrs`. -/
theorem parseTemplateErrs_mem (config : ParserConfig) (doc : SectionsDoc)
    (formCode : String) (e : String) (he : e ∈ (parseSections doc.sections).2) :
    e ∈ parseTemplateErrs config doc formCode := by
  unfold parseTemplateErrs
  cases hc : config.validateOnParse with
  | false => simpa [hc] using he
  | true =>
    cases hv : (validateTemplate (parseTemplateAssembled doc formCode)).isValid with
    | true => simpa [hc, hv] using he
    | false => simp only [hc, hv, if_true, if_false]; exact List.mem_append_left _ he

/-- Any error collected while parsing sections makes `parseTemplate` fail:
it stays in the returned error list, `success` is false, and no template is
returned. -/
theorem parseTemplateCore_of_error (config : ParserConfig) (doc : SectionsDoc)
    (formCode : String) (hroot : doc.rootTag = "Sections") (e : String)
    (he : e ∈ (parseSections doc.sections).2) :
    e ∈ (parseTemplateCore config doc formCode).errors
    ∧ (parseTemplateCore config doc formCode).success = false
    ∧ (parseTemplateCore config doc formCode).template = none := by
  have hmem := parseTemplateErrs_mem config doc formCode e he
  have hne : (parseTemplateErrs config doc formCode).isEmpty = false :=
    isEmpty_false_of_mem hmem
  unfold parseTemplateCore
  rw [if_neg (by simp [hroot])]
  simp [hne, hmem]
/-- A structurally complete section element parses without errors and its
parsed section passes `validateSection`'s dynamic-section checks. -/
theorem parseSection_wf (se : SectionElement) (h : sectionWellFormed se = true) :
    (parseSection se).2 = [] ∧ validateSectionErrs (parseSection se).1 = [] := by
  unfold sectionWellFormed at h
  simp only [Bool.and_eq_true] at h
  obtain ⟨⟨hcells, hrow⟩, hdyn⟩ := h
  have hc := parseCellList_allOk "Error parsing cell: " _ hcells
  constructor
  · unfold parseSection
    cases hri : se.rowInfo with
    | none => simp [hc.1]
    | some l =>
      have hl : l.all cellAttrsOk = true := by rw [hri] at hrow; simpa using hrow
      have hr := parseCellList_allOk "Error parsing row info cell: " l hl
      simp [hc.1, hr.1]
  · by_cases hd : se.dynamicAttr = some "1"
    · rw [if_pos hd] at hdyn
      simp only [Bool.and_eq_true, Bool.not_eq_true'] at hdyn
      obtain ⟨⟨htn, htp⟩, hrine⟩ := hdyn
      unfold validateSectionErrs parseSection
      cases hri : se.rowInfo with
      | none => rw [hri] at hrine; simp at hrine
      | some l =>
        have hl : l.all cellAttrsOk = true := by rw [hri] at hrow; simpa using hrow
        have hr := parseCellList_allOk "Error parsing row info cell: " l hl
        have hlne : l ≠ [] := by
          rw [hri] at hrine
          simpa [List.isEmpty_iff] using hrine
        have hfne : (parseCellList "Error parsing row info cell: " l).1 ≠ [] := by
          intro hnil
          apply hlne
          have := hr.2
          rw [hnil] at this
          exact (List.length_eq_zero.mp this.symm)
        simp [jsFalsy_jsOrUndef, htn, htp, List.isEmpty_iff, hfne, hd]
    · unfold validateSectionErrs parseSection
      simp [hd]

/-- All-well-formed section elements parse with no errors, and every parsed
section passes the dynamic-section checks. -/
theorem parseSections_wf (ss : List SectionElement) (h : ss.all sectionWellFormed = true) :
    (parseSections ss).2 = [] ∧ ∀ s ∈ (parseSections ss).1, validateSectionErrs s = [] := by
  induction ss with
  | nil => exact ⟨rfl, by intro s hs; cases hs⟩
  | cons a rest ih =>
    rw [List.all_cons, Bool.and_eq_true] at h
    have ha := parseSection_wf a h.1
    have ht := ih h.2
    refine ⟨by simp [parseSections, ha.1, ht.1], ?_⟩
    intro s hs
    simp only [parseSections] at hs
    rcases List.mem_cons.mp hs with rfl | hmem
    · exact ha.2
    · exact ht.2 s hmem

/-- A flattened map is empty when each image is. -/
theorem flatten_map_nil {α : Type} (l : List α) (f : α → List String)
    (h : ∀ a ∈ l, f a = []) : (l.map f).flatten = [] := by
  induction l with
  | nil => rfl
  | cons x rest ih =>
    simp [h x (List.mem_cons_self x rest), ih (fun a ha => h a (List.mem_cons_of_mem x ha))]

/-- On a well-formed document with a non-empty form code, the assembled
template passes the parser's `validateTemplate` (field-level defects land
only in the `fieldErrors` record, never in the top-level error list). -/
theorem validateTemplate_isValid_of_wf (doc : SectionsDoc) (formCode : String)
    (hfc : formCode ≠ "") (hne : doc.sections ≠ [])
    (hwf : doc.sections.all sectionWellFormed = true) :
    (validateTemplate (parseTemplateAssembled doc formCode)).isValid = true := by
  have hsecs := parseSections_wf doc.sections hwf
  have hlen := parseSections_length doc.sections
  have hsecne : (parseSections doc.sections).1 ≠ [] := by
    intro hnil
    apply hne
    have hzero : doc.sections.length = 0 := by rw [← hlen, hnil]; rfl
    exact List.length_eq_zero.mp hzero
  unfold validateTemplate parseTemplateAssembled
  simp only []
  rw [if_neg (jsOr_unknown_ne_empty doc.versionAttr), if_neg hfc,
    if_neg (by simpa [List.isEmpty_iff] using hsecne)]
  rw [flatten_map_nil _ _ hsecs.2]
  rfl

/-- On a well-formed document (root tag, complete cell attributes,
non-empty form code, at least one section, dynamic-section attributes
present) `parseTemplate` succeeds with the assembled template, no errors
and no warnings — whatever defects the individual field definitions carry. -/
theorem parseTemplateCore_wf (config : ParserConfig) (doc : SectionsDoc)
    (formCode : String) (hroot : doc.rootTag = "Sections") (hfc : formCode ≠ "")
    (hne : doc.sections ≠ []) (hwf : doc.sections.all sectionWellFormed = true) :
    parseTemplateCore config doc formCode =
      { success := true, template := some (parseTemplateAssembled doc formCode)
        errors := [], warnings := [] } := by
  have herrs : parseTemplateErrs config doc formCode = [] := by
    unfold parseTemplateErrs
    have hv := validateTemplate_isValid_of_wf doc formCode hfc hne hwf
    have hs := (parseSections_wf doc.sections hwf).1
    split
    · simp [hv, hs]
    · exact hs
  unfold parseTemplateCore
  rw [if_neg (by simp [hroot])]
  simp [herrs]

/-- A control-type code outside the documented catalogue falls through the
`switch` to the TEXT fallback. -/
theorem parseControlTypeNum_unknown (n : Option Int)
    (h : isKnownControlCode n = false) : parseControlTypeNum n = .TEXT := by
  simp only [isKnownControlCode, List.any_eq_false, decide_eq_true_eq, List.mem_cons,
    List.mem_singleton, List.not_mem_nil] at h
  unfold parseControlTypeNum
  split_ifs with h0 h2 h6 h14 h16 h26 h56 h100 h101 <;>
    first
      | rfl
      | (exfalso
         first
           | exact h 0 (by norm_num) h0
           | exact h 2 (by norm_num) h2
           | exact h 6 (by norm_num) h6
           | exact h 14 (by norm_num) h14
           | exact h 16 (by norm_num) h16
           | exact h 26 (by norm_num) h26
           | exact h 56 (by norm_num) h56
           | exact h 100 (by norm_num) h100
           | exact h 101 (by norm_num) h101)

/-- With no custom rules on a field, its validation ignores the form-data
record entirely. -/
theorem engineValidateField_rules_nil (env : EngineEnv) (field : RenderedField)
    (v : JsValue) (fd fd' : HTKKFormData)
    (hr : field.validation.customRules = []) :
    engineValidateField env field v fd = engineValidateField env field v fd' := by
  unfold engineValidateField
  rw [hr]
  rfl

/-- With no custom rules, one step of `validateForm`'s field loop depends
on the form data only through its `data` record. -/
theorem validateFormStep_congr (env : EngineEnv) (fd fd' : HTKKFormData)
    (hdata : fd.data = fd'.data) (acc : FieldAcc) (field : RenderedField)
    (hr : field.validation.customRules = []) :
    validateFormStep env fd acc field = validateFormStep env fd' acc field := by
  unfold validateFormStep
  simp only [hdata,
    engineValidateField_rules_nil env field (recordGet fd'.data field.path) fd fd' hr]

/-- With no custom rules anywhere, the whole per-field loop of
`validateForm` depends on the form data only through its `data` record. -/
theorem validateFormAcc_congr (env : EngineEnv) (fs : FormStructure)
    (fd fd' : HTKKFormData) (hdata : fd.data = fd'.data)
    (hrules : ∀ s ∈ fs.sections, ∀ f ∈ s.fields, f.validation.customRules = []) :
    validateFormAcc env fs fd = validateFormAcc env fs fd' := by
  unfold validateFormAcc
  apply foldl_congr_mem
  intro b s hs
  apply foldl_congr_mem
  intro b2 f hf
  exact validateFormStep_congr env fd fd' hdata b2 f (hrules s hs f hf)

/-- Finished entries of a `set` phase list satisfy a predicate when the
old finished entries and the new entry do. -/
theorem phases_set_pred {T : Type} (P : T → Prop) (phases : List (ParsePhase T)) (j : Nat)
    (ph : ParsePhase T)
    (hd : ∀ (i : Nat) (r : T), phases[i]? = some (ParsePhase.done r) → P r)
    (hph : ∀ r : T, ph = ParsePhase.done r → P r) :
    ∀ (i : Nat) (r : T), (phases.set j ph)[i]? = some (ParsePhase.done r) → P r := by
  intro i r hi
  rw [List.getElem?_set] at hi
  by_cases hij : j = i
  · rw [if_pos hij] at hi
    by_cases hlt : j < phases.length
    · rw [if_pos hlt] at hi
      injection hi with h1
      exact hph r h1
    · rw [if_neg hlt] at hi
      cases hi
  · rw [if_neg hij] at hi
    exact hd i r hi

/-- `flightStep` equation: with caching on, the cache check on a hit
finishes with the cache-hit wrapper of the cached template. -/
theorem flightStep_check_hit (config : ParserConfig) (doc : SectionsDoc)
    (formCode : String) (s : ParseFlightState) (j : Nat) (t : HTKKTemplate)
    (hcfg : config.cacheTemplates = true)
    (hj : s.phases[j]? = some ParsePhase.toCheck) (hcc : s.cache = some t) :
    flightStep config doc formCode s j =
      { s with phases := s.phases.set j (ParsePhase.done (cacheHitResult t)) } := by
  unfold flightStep
  rw [hj, hcfg, hcc]
  rfl

/-- `flightStep` equation: with caching on, the cache check on a miss
commits the caller to parsing. -/
theorem flightStep_check_miss (config : ParserConfig) (doc : SectionsDoc)
    (formCode : String) (s : ParseFlightState) (j : Nat)
    (hcfg : config.cacheTemplates = true)
    (hj : s.phases[j]? = some ParsePhase.toCheck) (hcc : s.cache = none) :
    flightStep config doc formCode s j =
      { s with phases := s.phases.set j ParsePhase.toParse } := by
  unfold flightStep
  rw [hj, hcfg, hcc]
  rfl

/-- `flightStep` equation: with caching off, the cache check always
commits the caller to parsing. -/
theorem flightStep_check_nocache (config : ParserConfig) (doc : SectionsDoc)
    (formCode : String) (s : ParseFlightState) (j : Nat)
    (hcfg : config.cacheTemplates = false)
    (hj : s.phases[j]? = some ParsePhase.toCheck) :
    flightStep config doc formCode s j =
      { s with phases := s.phases.set j ParsePhase.toParse } := by
  unfold flightStep
  rw [hj, hcfg]
  rfl

/-- `flightStep` equation: the parse step performs the parse, conditionally
writes the assembled template to the cache, and finishes with the full
parse result. -/
theorem flightStep_parse (config : ParserConfig) (doc : SectionsDoc)
    (formCode : String) (s : ParseFlightState) (j : Nat)
    (hj : s.phases[j]? = some ParsePhase.toParse) :
    flightStep config doc formCode s j =
      { cache :=
          if doc.rootTag ≠ "Sections" then s.cache
          else if config.cacheTemplates then some (parseTemplateAssembled doc formCode)
          else s.cache
        phases := s.phases.set j (ParsePhase.done (parseTemplateCore config doc formCode))
        parseCount := s.parseCount + 1 } := by
  unfold flightStep
  rw [hj]

/-- The invariant of `parseTemplate`'s cache discipline: the cache entry
for the shared key holds nothing or the assembled template of the shared
document, and every finished caller holds either the full deterministic
parse result or the cache-hit wrapper of that assembled template.
Preserved by each scheduler step. -/
theorem flightStep_inv (config : ParserConfig) (doc : SectionsDoc) (formCode : String)
    (s : ParseFlightState) (j : Nat)
    (hc : s.cache = none ∨ s.cache = some (parseTemplateAssembled doc formCode))
    (hd : ∀ (i : Nat) (r : ParseResult), s.phases[i]? = some (ParsePhase.done r) →
        r = parseTemplateCore config doc formCode
        ∨ r = cacheHitResult (parseTemplateAssembled doc formCode)) :
    ((flightStep config doc formCode s j).cache = none
      ∨ (flightStep config doc formCode s j).cache = some (parseTemplateAssembled doc formCode))
    ∧ ∀ (i : Nat) (r : ParseResult),
        (flightStep config doc formCode s j).phases[i]? = some (ParsePhase.done r) →
        r = parseTemplateCore config doc formCode
        ∨ r = cacheHitResult (parseTemplateAssembled doc formCode) := by
  cases hj : s.phases[j]? with
  | none =>
    have hstep : flightStep config doc formCode s j = s := by unfold flightStep; rw [hj]
    rw [hstep]
    exact ⟨hc, hd⟩
  | some ph =>
    cases ph with
    | done r =>
      have hstep : flightStep config doc formCode s j = s := by unfold flightStep; rw [hj]
      rw [hstep]
      exact ⟨hc, hd⟩
    | toParse =>
      rw [flightStep_parse config doc formCode s j hj]
      constructor
      · by_cases hroot : doc.rootTag ≠ "Sections"
        · rw [if_pos hroot]
          exact hc
        · rw [if_neg hroot]
          by_cases hcfg : config.cacheTemplates = true
          · rw [if_pos hcfg]
            exact Or.inr rfl
          · rw [if_neg hcfg]
            exact hc
      · exact phases_set_pred _ s.phases j _ hd
          (fun r hr => by injection hr with h; exact Or.inl h.symm)
    | toCheck =>
      by_cases hcfg : config.cacheTemplates = true
      · cases hcc : s.cache with
        | none =>
          rw [flightStep_check_miss config doc formCode s j hcfg hj hcc]
          refine ⟨Or.inl hcc, ?_⟩
          exact phases_set_pred _ s.phases j _ hd (fun r hr => by cases hr)
        | some t =>
          have ht : t = parseTemplateAssembled doc formCode := by
            rcases hc with h | h
            · rw [hcc] at h; cases h
            · rw [hcc] at h; injection h
          rw [flightStep_check_hit config doc formCode s j t hcfg hj hcc]
          refine ⟨Or.inr (by rw [hcc, ht]), ?_⟩
          exact phases_set_pred _ s.phases j _ hd
            (fun r hr => by injection hr with h; rw [← h, ht]; exact Or.inr rfl)
      · have hcfg2 : config.cacheTemplates = false := by
          cases h2 : config.cacheTemplates
          · rfl
          · exact absurd h2 hcfg
        rw [flightStep_check_nocache config doc formCode s j hcfg2 hj]
        refine ⟨hc, ?_⟩
        exact phases_set_pred _ s.phases j _ hd (fun r hr => by cases hr)

/-- The cache-discipline invariant holds after any schedule. -/
theorem runParseFlight_inv (config : ParserConfig) (doc : SectionsDoc)
    (formCode : String) (sched : List Nat) (init : ParseFlightState)
    (hc : init.cache = none ∨ init.cache = some (parseTemplateAssembled doc formCode))
    (hd : ∀ (i : Nat) (r : ParseResult), init.phases[i]? = some (ParsePhase.done r) →
        r = parseTemplateCore config doc formCode
        ∨ r = cacheHitResult (parseTemplateAssembled doc formCode)) :
    ((sched.foldl (flightStep config doc formCode) init).cache = none
      ∨ (sched.foldl (flightStep config doc formCode) init).cache
          = some (parseTemplateAssembled doc formCode))
    ∧ ∀ (i : Nat) (r : ParseResult),
        (sched.foldl (flightStep config doc formCode) init).phases[i]?
          = some (ParsePhase.done r) →
        r = parseTemplateCore config doc formCode
        ∨ r = cacheHitResult (parseTemplateAssembled doc formCode) := by
  induction sched generalizing init with
  | nil => exact ⟨hc, hd⟩
  | cons j rest ih =>
    rw [List.foldl_cons]
    have step := flightStep_inv config doc formCode init j hc hd
    exact ih (flightStep config doc formCode init j) step.1 step.2

/-! ## Claim theorems -/

set_option maxRecDepth 8000 in
/-- Claim C1 (code bug): the spec demands that export insert the form
values and round-trip-validate them, reporting `complianceOk=false` on
mismatch. In the code `generateHTKKXML` returns a fixed placeholder
skeleton — the produced XML is identical for every form-data instance (all
field data silently dropped), it never contains a submitted value such as
"HELLO", and the compliance flag is a substring check on `HSoThueDTu` that
is `true` for the skeleton regardless. -/
theorem C1_export_ignores_data (env env2 : EngineEnv) (fs fs2 : FormStructure)
    (fd fd2 : HTKKFormData) :
    (exportToXML env fs fd).xmlContent = (exportToXML env2 fs2 fd2).xmlContent
    ∧ (exportToXML env fs fd).htkkCompliant = true
    ∧ strContains (exportToXML env fs fd).xmlContent "HELLO" = false := by
  refine ⟨rfl, ?_, ?_⟩
  · have hx : (exportToXML env fs fd).htkkCompliant =
        strContains htkkStubOutput "HSoThueDTu" := rfl
    rw [hx]
    decide
  · have hx : strContains (exportToXML env fs fd).xmlContent "HELLO" =
        strContains htkkStubOutput "HELLO" := rfl
    rw [hx]
    decide

/-- Claim C2 (amended): a field whose control-type code is outside the
documented catalogue still parses; the type resolves to TEXT and the
ParseResult carries zero errors — but also zero warnings: the "unknown
control type" diagnostic goes to `console.warn`, never into the returned
warning list. -/
theorem C2_unknown_control_type (s : String)
    (h : isKnownControlCode (jsParseInt s) = false) :
    parseControlType s = HTKKControlType.TEXT
    ∧ (parseTemplateCore defaultParserConfig docC2 "01/GTGT").success = true
    ∧ (parseTemplateCore defaultParserConfig docC2 "01/GTGT").errors = []
    ∧ (parseTemplateCore defaultParserConfig docC2 "01/GTGT").warnings = []
    ∧ ((parseTemplateCore defaultParserConfig docC2 "01/GTGT").template.map
        (fun t => t.sections.map (fun sec => sec.cells.map (fun f => f.controlType))))
      = some [[HTKKControlType.TEXT]] :=
  ⟨parseControlTypeNum_unknown (jsParseInt s) h, by decide, by decide, by decide, by decide⟩

/-- Witness for C2 at the spec's own example code `9999`. -/
theorem C2_witness :
    isKnownControlCode (jsParseInt "9999") = false
    ∧ parseControlType "9999" = HTKKControlType.TEXT :=
  ⟨by decide, (C2_unknown_control_type "9999" (by decide)).1⟩

/-- Counterexample for C2 as stated: parsing the unknown-code document
yields an empty warning list, not exactly one warning. -/
theorem C2_counterexample :
    (parseTemplateCore defaultParserConfig docC2 "01/GTGT").warnings = []
    ∧ ¬((parseTemplateCore defaultParserConfig docC2 "01/GTGT").warnings.length = 1) :=
  ⟨by decide, by decide⟩

/-- Claim C3 (amended): a field element missing `CellID`, `Path` or the
control type makes the parse fail (`success=false`, no template) and
contributes one collected error per defective field, without stopping the
loop; the error message names only the missing attribute, not the field's
id. -/
theorem C3_missing_attr (config : ParserConfig) (doc : SectionsDoc) (formCode : String)
    (hroot : doc.rootTag = "Sections") (se : SectionElement) (hse : se ∈ doc.sections)
    (c : CellElement) (hc : c ∈ se.cells.getD [])
    (hbad : jsFalsyOptStr c.cellId = true ∨ jsFalsyOptStr c.path = true ∨
            jsFalsyOptStr c.controltypeAttr = true) :
    (parseTemplateCore config doc formCode).success = false
    ∧ (parseTemplateCore config doc formCode).template = none
    ∧ ∃ msg, parseField c = .error msg
        ∧ ("Error parsing cell: " ++ msg) ∈ (parseTemplateCore config doc formCode).errors := by
  obtain ⟨msg, hmsg⟩ := parseField_error_of_missing c hbad
  have hmem := parseSections_mem doc.sections se hse _
    (parseSection_mem_cells se _ (parseCellList_error_mem _ _ c hc msg hmsg))
  have main := parseTemplateCore_of_error config doc formCode hroot _ hmem
  exact ⟨main.2.1, main.2.2, msg, hmsg, main.1⟩

/-- Witness for C3: the document whose only cell is missing `Path`. -/
theorem C3_witness :
    (parseTemplateCore defaultParserConfig docC3 "01/GTGT").success = false
    ∧ (parseTemplateCore defaultParserConfig docC3 "01/GTGT").template = none
    ∧ ∃ msg, parseField cellC3 = .error msg
        ∧ ("Error parsing cell: " ++ msg) ∈
            (parseTemplateCore defaultParserConfig docC3 "01/GTGT").errors :=
  C3_missing_attr defaultParserConfig docC3 "01/GTGT" (by decide) secC3 (by decide)
    cellC3 (by decide) (by decide)

/-- Counterexample for C3 as stated: the collected error for the field with
`CellID "F1"` and no `Path` is "Error parsing cell: Path is required",
which does not name the field's id. -/
theorem C3_counterexample :
    (parseTemplateCore defaultParserConfig docC3 "01/GTGT").errors =
      ["Error parsing cell: Path is required"]
    ∧ cellC3.cellId = some "F1"
    ∧ strContains "Error parsing cell: Path is required" "F1" = false :=
  ⟨by decide, by decide, by decide⟩

/-- Claim C4 (amended): template defects — a dependent dropdown without a
parent reference, a NUMBER field with `minValue > maxValue` — are non-fatal
to parsing: a document whose only defects are of that kind parses with
`success=true`, no errors and no warnings; the defects are recorded by
`validateTemplate` as per-field messages (`fieldErrors`), but they do not
affect its `isValid` flag (nothing blocks the "compliant" status). -/
theorem C4_template_defects_nonfatal (config : ParserConfig) (doc : SectionsDoc)
    (formCode : String) (hroot : doc.rootTag = "Sections") (hfc : formCode ≠ "")
    (hne : doc.sections ≠ []) (hwf : doc.sections.all sectionWellFormed = true) :
    (parseTemplateCore config doc formCode =
      { success := true, template := some (parseTemplateAssembled doc formCode)
        errors := [], warnings := [] }
      ∧ (validateTemplate (parseTemplateAssembled doc formCode)).isValid = true)
    ∧ (∀ f : HTKKField, f.controlType = HTKKControlType.DEPENDENT_DROPDOWN →
        jsFalsyOptStr f.parentCell = true →
        "Dependent dropdown must have parentCell" ∈ (validateFieldMsgs f).1)
    ∧ (∀ (f : HTKKField) (a b : Int), f.controlType = HTKKControlType.NUMBER →
        f.minValue = some a → f.maxValue = some b → a > b →
        "MinValue cannot be greater than MaxValue" ∈ (validateFieldMsgs f).1) := by
  refine ⟨⟨parseTemplateCore_wf config doc formCode hroot hfc hne hwf,
    validateTemplate_isValid_of_wf doc formCode hfc hne hwf⟩, ?_, ?_⟩
  · intro f hctrl hpar
    simp [validateFieldMsgs, hctrl, hpar]
  · intro f a b hctrl hmin hmax hab
    simp [validateFieldMsgs, hctrl, hmin, hmax, hab]

/-- Witness for C4: the document with exactly the two template defects. -/
theorem C4_witness :
    parseTemplateCore defaultParserConfig docC4 "01/GTGT" =
      { success := true, template := some (parseTemplateAssembled docC4 "01/GTGT")
        errors := [], warnings := [] }
    ∧ (validateTemplate (parseTemplateAssembled docC4 "01/GTGT")).isValid = true :=
  (C4_template_defects_nonfatal defaultParserConfig docC4 "01/GTGT" (by decide) (by decide)
    (by decide) (by decide)).1

/-- Counterexample for C4 as stated ("defects block compliant status"): the
defective template parses, its two defects land in `fieldErrors`, yet
`isValid` stays `true` and the validation score stays 100 — nothing is
blocked. -/
theorem C4_counterexample :
    ((parseTemplateCore defaultParserConfig docC4 "01/GTGT").template.map
      (fun t => ((validateTemplate t).isValid, (validateTemplate t).fieldErrors,
        (validateTemplate t).validationScore))) =
      some (true, [("p1", ["Dependent dropdown must have parentCell"]),
                   ("p2", ["MinValue cannot be greater than MaxValue"])], 100) := by
  decide

/-- Claim C5 (amended): required-ness is computed from the field's naming
alone — `path` contains "required" or `cellId` starts with "R_" — so it
depends only on those two strings; there is no explicit required flag. -/
theorem C5_required_naming_only (f g : HTKKField) (hp : f.path = g.path)
    (hc : f.cellId = g.cellId) : isFieldRequired f = isFieldRequired g := by
  unfold isFieldRequired
  rw [hp, hc]

/-- Witness for C5: two fields identical in naming but different in value
agree on required-ness. -/
theorem C5_witness :
    isFieldRequired fldX = isFieldRequired { fldX with value := "other" } :=
  C5_required_naming_only fldX { fldX with value := "other" } rfl rfl

/-- Counterexample for C5 as stated: two fields identical except for the
text of their cellId differ in required-ness — required-ness is inferred
from naming, and no boolean required flag exists on the field model. -/
theorem C5_counterexample :
    fldR = { fldX with cellId := "R_1" }
    ∧ isFieldRequired fldR = true
    ∧ isFieldRequired fldX = false :=
  ⟨rfl, by decide, by decide⟩

/-- Claim C6 (amended): `validateForm` never reads the submitted dynamic
rows: with no custom rules on any field, its result is identical whatever
`dynamicData` holds — so a row count exceeding `maxRows` yields zero
errors, exactly like `maxRows = 0`; `maxRows` is only surfaced as metadata
by `getSectionValidation`. -/
theorem C6_maxRows_never_enforced (env : EngineEnv) (fs : FormStructure)
    (fc tv : String) (data : List (String × JsValue))
    (d1 d2 : List (String × List (List (String × JsValue))))
    (hrules : (fs.sections.all fun s => s.fields.all fun f =>
        f.validation.customRules.isEmpty) = true) :
    validateForm env fs { formCode := fc, templateVersion := tv, data := data, dynamicData := d1 }
      = validateForm env fs { formCode := fc, templateVersion := tv, data := data, dynamicData := d2 } := by
  have hr : ∀ s ∈ fs.sections, ∀ f ∈ s.fields, f.validation.customRules = [] := by
    intro s hs f hf
    have h1 := (List.all_eq_true.mp hrules) s hs
    have h2 := (List.all_eq_true.mp h1) f hf
    exact List.isEmpty_iff.mp h2
  have hacc := validateFormAcc_congr env fs
    { formCode := fc, templateVersion := tv, data := data, dynamicData := d1 }
    { formCode := fc, templateVersion := tv, data := data, dynamicData := d2 } rfl hr
  unfold validateForm
  rw [hacc]
  rfl

/-- Witness for C6: the concrete dynamic section with `maxRows = 2`
validates identically with three submitted rows and with none. -/
theorem C6_witness :
    validateForm defaultEnv fsC6
        { formCode := "01/GTGT", templateVersion := "1", data := []
          dynamicData := [("TP", [rowC6, rowC6, rowC6])] }
      = validateForm defaultEnv fsC6
        { formCode := "01/GTGT", templateVersion := "1", data := []
          dynamicData := [] } :=
  C6_maxRows_never_enforced defaultEnv fsC6 "01/GTGT" "1" []
    [("TP", [rowC6, rowC6, rowC6])] [] (by decide)

/-- Counterexample for C6 as stated: `maxRows = 2` with three submitted
rows yields zero errors of any kind, not exactly one structural error. -/
theorem C6_counterexample :
    (getSectionValidation sectionC6).maxRows = some 2
    ∧ ((fdC6threeRows.dynamicData.find? (fun p => p.1 = "TP")).map
        (fun p => p.2.length)) = some 3
    ∧ (validateForm defaultEnv fsC6 fdC6threeRows).errorCount = 0
    ∧ (validateForm defaultEnv fsC6 fdC6threeRows).complianceErrors = []
    ∧ (validateForm defaultEnv fsC6 fdC6threeRows).businessRuleErrors = []
    ∧ (validateForm defaultEnv fsC6 fdC6threeRows).crossFieldErrors = []
    ∧ (validateForm defaultEnv fsC6 fdC6threeRows).isValid = true :=
  ⟨by decide, by decide, by decide, by decide, by decide, by decide, by decide⟩

/-- Claim C7 (amended): each scoring site computes
`max(0, 100 − wE·errors − wW·warnings)` and is monotone — adding errors or
warnings never increases it — but the error weight differs between the two
sites: 5 in the form engine, 10 in the parser's template validation. -/
theorem C7_score_monotone (e e' w w' : Nat) (he : e ≤ e') (hw : w ≤ w') :
    scoreEngine e' w' ≤ scoreEngine e w ∧ scoreParser e' w' ≤ scoreParser e w := by
  constructor
  · unfold scoreEngine
    exact max_le_max (le_refl 0) (by omega)
  · unfold scoreParser
    exact max_le_max (le_refl 0) (by omega)

/-- Witness for C7: one added error lowers both scores. -/
theorem C7_witness :
    scoreEngine 1 0 ≤ scoreEngine 0 0 ∧ scoreParser 1 0 ≤ scoreParser 0 0 :=
  C7_score_monotone 0 1 0 0 (by decide) (by decide)

/-- Counterexample for C7 as stated ("weights kept stable across every
place a score is produced"): one error scores 95 in the form engine but 90
in the parser's template validation. -/
theorem C7_counterexample :
    scoreEngine 1 0 = 95 ∧ scoreParser 1 0 = 90 ∧ scoreEngine 1 0 ≠ scoreParser 1 0 :=
  ⟨by decide, by decide, by decide⟩

/-- Claim C8 (amended): on a TAX_CODE field, a non-empty string value
matching `^\d{10}(-\d{3})?$` validates with zero errors ("0123456789");
a non-matching value always gets the tax-code-format error, and — because
rendered TAX_CODE fields also carry `minLength = 10` — a value shorter
than ten characters additionally gets a minimum-length error, so "123"
yields exactly two FieldValidationErrors, not one. -/
theorem C8_taxcode_format (env : EngineEnv) (fd : HTKKFormData) (s : String)
    (hs : s ≠ "") (hbad : taxCodePatternOk s = false) :
    "T_1 must be a valid tax code format"
      ∈ (engineValidateField env taxRenderedC8 (.str s) fd).1
    ∧ (engineValidateField defaultEnv taxRenderedC8 (.str "0123456789") fdEmpty).1 = []
    ∧ (engineValidateField defaultEnv taxRenderedC8 (.str "123") fdEmpty).1 =
        ["T_1 must be a valid tax code format", "T_1 must be at least 10 characters"] := by
  refine ⟨?_, by decide, by decide⟩
  have hreq : taxRenderedC8.required = false := by decide
  have hct : taxRenderedC8.ctype = HTKKControlType.TAX_CODE := by decide
  have hlab : taxRenderedC8.label = "T_1" := by decide
  have hmin : taxRenderedC8.validation.minLength = some 10 := by decide
  have hmax : taxRenderedC8.validation.maxLength = none := by decide
  have hpat : taxRenderedC8.validation.pattern = none := by decide
  have hcr : taxRenderedC8.validation.customRules = [] := rfl
  simp only [engineValidateField, hreq, hct, hlab, hmin, hmax, hpat, hcr,
    List.foldl_nil, Bool.false_and]
  simp [hs, hbad]

/-- Witness for C8 at the spec's own example "123". -/
theorem C8_witness :
    ("123" : String) ≠ ""
    ∧ taxCodePatternOk "123" = false
    ∧ "T_1 must be a valid tax code format"
        ∈ (engineValidateField defaultEnv taxRenderedC8 (.str "123") fdEmpty).1 :=
  ⟨by decide, by decide, (C8_taxcode_format defaultEnv fdEmpty "123" (by decide) (by decide)).1⟩

/-- Counterexample for C8 as stated: value "123" yields two field errors,
not exactly one. -/
theorem C8_counterexample :
    (engineValidateField defaultEnv taxRenderedC8 (.str "123") fdEmpty).1.length = 2
    ∧ ¬((engineValidateField defaultEnv taxRenderedC8 (.str "123") fdEmpty).1.length = 1) :=
  ⟨by decide, by decide⟩

/-- Claim C9 (amended): `parseTemplate`'s cache discipline is a plain
check-then-insert with `await` points in between and no in-flight
registry, so neither half of the original guarantee holds: interleaved
callers can each run the parse, and callers need not receive equal
ParseResults — a cache-served caller gets the "Template loaded from cache"
wrapper, a parsing caller gets the parser's own result. What does hold:
no caller ever observes a partially-parsed template. Every finished
caller's result is either the full deterministic parse result or the
cache-hit wrapper of the completely assembled template (the cache is
written only after a parse completes), and on a well-formed document every
caller receives `success = true` with the same assembled template. -/
theorem C9_no_partial_template (config : ParserConfig) (doc : SectionsDoc)
    (formCode : String) (n : Nat) (sched : List Nat) (i : Nat) (r : ParseResult)
    (hroot : doc.rootTag = "Sections") (hfc : formCode ≠ "")
    (hne : doc.sections ≠ []) (hwf : doc.sections.all sectionWellFormed = true)
    (h : (runParseFlight config doc formCode n sched).phases[i]?
        = some (ParsePhase.done r)) :
    (r = parseTemplateCore config doc formCode
      ∨ r = cacheHitResult (parseTemplateAssembled doc formCode))
    ∧ r.template = some (parseTemplateAssembled doc formCode)
    ∧ r.success = true := by
  unfold runParseFlight at h
  have hd0 : ∀ (i : Nat) (r : ParseResult),
      (List.replicate n (ParsePhase.toCheck (T := ParseResult)))[i]?
        = some (ParsePhase.done r) →
      r = parseTemplateCore config doc formCode
      ∨ r = cacheHitResult (parseTemplateAssembled doc formCode) := by
    intro i r hi
    rw [List.getElem?_replicate] at hi
    split at hi
    · simp at hi
    · cases hi
  have inv := runParseFlight_inv config doc formCode sched
    { cache := none, phases := List.replicate n ParsePhase.toCheck, parseCount := 0 }
    (Or.inl rfl) hd0
  have hdisj := inv.2 i r h
  have hres : r.template = some (parseTemplateAssembled doc formCode)
      ∧ r.success = true := by
    rcases hdisj with rfl | rfl
    · rw [parseTemplateCore_wf config doc formCode hroot hfc hne hwf]
      exact ⟨rfl, rfl⟩
    · exact ⟨rfl, rfl⟩
  exact ⟨hdisj, hres.1, hres.2⟩

/-- Witness for C9: one caller checks, misses, parses and finishes; its
result is the parser's own (miss-path) result, carrying the complete
assembled template with success. -/
theorem C9_witness :
    (runParseFlight defaultParserConfig docC9 "01/GTGT" 2 [0, 0]).phases[0]?
      = some (ParsePhase.done resC9)
    ∧ ((resC9 = parseTemplateCore defaultParserConfig docC9 "01/GTGT"
        ∨ resC9 = cacheHitResult (parseTemplateAssembled docC9 "01/GTGT"))
      ∧ resC9.template = some (parseTemplateAssembled docC9 "01/GTGT")
      ∧ resC9.success = true) :=
  ⟨by decide, C9_no_partial_template defaultParserConfig docC9 "01/GTGT" 2 [0, 0] 0 resC9
    (by decide) (by decide) (by decide) (by decide) (by decide)⟩

/-- Counterexample for C9 as stated: with two concurrent callers for the
same uncached key, the schedule check/check/parse/parse executes the parse
twice, not exactly once; and under check/parse/check — where the second
caller is served from the cache — the two callers receive unequal
ParseResults: the cache-hit caller's carries the "Template loaded from
cache" warning the parsing caller's does not. -/
theorem C9_counterexample :
    ((runParseFlight defaultParserConfig docC9 "01/GTGT" 2 [0, 1, 0, 1]).parseCount = 2
      ∧ ¬((runParseFlight defaultParserConfig docC9 "01/GTGT" 2 [0, 1, 0, 1]).parseCount = 1))
    ∧ ((runParseFlight defaultParserConfig docC9 "01/GTGT" 2 [0, 0, 1]).phases[0]?
        = some (ParsePhase.done resC9)
      ∧ (runParseFlight defaultParserConfig docC9 "01/GTGT" 2 [0, 0, 1]).phases[1]?
        = some (ParsePhase.done (cacheHitResult (parseTemplateAssembled docC9 "01/GTGT")))
      ∧ resC9 ≠ cacheHitResult (parseTemplateAssembled docC9 "01/GTGT")) :=
  ⟨⟨by decide, by decide⟩, by decide, by decide, by decide⟩

/-- Claim C10 (confirmed): whenever the parser cache holds any template
whose `formCode` matches, `loadTemplate` returns it with `success=true`
and the single "loaded from cache" warning; the result is independent of
the `templateUrl` argument and of the fetch environment — no fetch, no
re-parse, and the cached template's source content and version are never
consulted. -/
theorem C10_cache_hit_by_formCode (env env2 : LoaderEnv) (config : ParserConfig)
    (cache : List (String × HTKKTemplate)) (formCode : String)
    (url url2 : Option String) (t : HTKKTemplate)
    (h : getCachedTemplate cache formCode = some t) :
    loadTemplate env config cache formCode url =
      { success := true, template := some t, errors := []
        warnings := ["Template loaded from cache"] }
    ∧ loadTemplate env config cache formCode url
        = loadTemplate env2 config cache formCode url2 := by
  unfold loadTemplate
  rw [h]
  exact ⟨rfl, rfl⟩

/-- Witness for C10: a stale cached template (old version, empty body) for
form code 01/GTGT is served as-is, with an explicit URL ignored and an
offline fetch environment never consulted. -/
theorem C10_witness :
    getCachedTemplate cacheC10 "01/GTGT" = some tOld
    ∧ (loadTemplate loaderOffline defaultParserConfig cacheC10 "01/GTGT" (some "http://x") =
        { success := true, template := some tOld, errors := []
          warnings := ["Template loaded from cache"] }
      ∧ loadTemplate loaderOffline defaultParserConfig cacheC10 "01/GTGT" (some "http://x")
          = loadTemplate loaderServes defaultParserConfig cacheC10 "01/GTGT" none) :=
  ⟨by decide, C10_cache_hit_by_formCode loaderOffline loaderServes defaultParserConfig
    cacheC10 "01/GTGT" (some "http://x") none tOld (by decide)⟩

end HTKK
